import Mathlib

/-!
Verification of the `mad-icp` command-line driver (`mad-icp/apps/mad-icp.py`)
and of the odometry-engine contract it drives.

The driver is embedded shallowly: filesystem facts (directory/file checks,
the list of names matched by `data_path.glob("*.bag")`), the two YAML
configuration mappings and the frame stream yielded by the dataset reader are
collected in an `Env` record, and `run` transcribes `main` line by line,
returning the run's outcome together with the observable trace (which reader
was selected, the arguments the `Pipeline` was constructed with, the
`compute` calls made, and the poses written to the estimate file).

The odometry engine itself (`pypeline.Pipeline`, a native extension whose
C++ sources are not part of this distribution) is modelled from its
specification; those definitions carry `Modelled from the spec:` comments.
-/

set_option maxHeartbeats 1000000
set_option linter.unusedVariables false

/-- A YAML scalar/sequence value as read by the driver.  The driver never
computes with these values, it only moves them around, so the carrier is an
arbitrary concrete inductive covering booleans, numbers, strings and lists. -/
inductive YVal where
  | b (v : Bool)
  | i (v : Int)
  | s (v : String)
  | l (v : List YVal)

/-- A parsed YAML configuration file: a mapping from key to value,
`none` meaning the key is absent (indexing raises `KeyError`). -/
abbrev Config := String → Option YVal

/-- A raw point of the input cloud (coordinates are opaque to the driver). -/
abbrev RawPoint := Int × Int × Int

/-- A point cloud as yielded by a dataset reader. -/
abbrev Cloud := List RawPoint

/-- One item yielded by the dataset reader: a `(timestamp, point_set)` pair. -/
abbrev Frame := Int × Cloud

/-- The members of the `InputDataInterface` enum in the driver. -/
inductive InputDataInterface where
  | kitti
  | ros1
deriving DecidableEq

/-- The Python exceptions the driver can die of. -/
inductive PyExn where
  | stopIteration
  | keyError (k : String)
  | fileNotFoundError
deriving DecidableEq

/-- Index of the last occurrence of `c` in `cs`, if any
(Python's `str.rfind`). -/
def lastIdxOf (c : Char) : List Char → Option Nat
  | [] => none
  | x :: xs =>
    match lastIdxOf c xs with
    | some i => some (i + 1)
    | none => if x = c then some 0 else none

/-- `pathlib.PurePath.suffix`: the substring of the file name from its last
dot, empty when the last dot is leading (a dot-file such as `".bag"` has no
suffix) or trailing. -/
def pathSuffix (name : String) : String :=
  let cs := name.toList
  match lastIdxOf '.' cs with
  | none => ""
  | some i => if 0 < i ∧ i < cs.length - 1 then String.mk (cs.drop i) else ""

/-- Python's `needle in hay` on strings: substring containment. -/
def strContains (needle hay : String) : Bool :=
  (List.range (hay.toList.length + 1)).any
    (fun k => (hay.toList.drop k).take needle.toList.length == needle.toList)

/-- The world-frame pose: a rigid transform, represented as a 4×4 homogeneous
matrix; the identity transform is `1` and composition is matrix product. -/
abbrev Pose := Matrix (Fin 4) (Fin 4) ℚ

/-- Modelled from the spec: a keyframe is an immutable snapshot of one
accepted frame — its (voxelized) point set together with the pose at which it
was inserted (the engine's C++ sources are not in this distribution). -/
abbrev Keyframe := Cloud × Pose

/-- The ten constructor arguments of `pypeline.Pipeline`, in the order of the
call `Pipeline(sensor_hz, deskew, b_max, rho_ker, p_th, b_min, b_ratio,
num_keyframes, num_cores, realtime)` at line 113 of the driver. -/
structure PipelineArgs where
  sensor_hz : YVal
  deskew : YVal
  b_max : YVal
  rho_ker : YVal
  p_th : YVal
  b_min : YVal
  b_ratio : YVal
  num_keyframes : Int
  num_cores : Int
  realtime : Bool

/-- Modelled from the spec: the Pipeline State — configuration, current
world pose, frame counter and the Local Map (a bounded list of keyframes,
newest first; the engine's C++ sources are not in this distribution). -/
structure PipelineState where
  cfg : PipelineArgs
  pose : Pose
  frameCount : Nat
  localMap : List Keyframe

/-- Modelled from the spec: the result `compute` reports for one frame —
the estimated relative transform and the low-confidence signal raised on
degenerate input. -/
structure ComputeResult where
  relative : Pose
  lowConfidence : Bool

/-- Modelled from the spec: the parts of the engine the specification leaves
open (the correspondence counter, the minimum-correspondence threshold, the
non-degenerate transform estimator, and the keyframe acceptance decision)
are abstracted as an oracle; every engine theorem holds for every oracle. -/
structure Oracle where
  corr : Cloud → List Keyframe → Nat
  minCorr : Nat
  est : Cloud → List Keyframe → Pose
  accept : PipelineState → Bool

/-- Modelled from the spec: Local Map insertion with oldest-first eviction —
the new keyframe goes in front and the map is truncated to the capacity
`num_keyframes`, so the oldest keyframes (at the back) are evicted whenever
the capacity would be exceeded. -/
def localMapInsert (capacity : Nat) (m : List Keyframe) (kf : Keyframe) :
    List Keyframe :=
  List.take capacity (kf :: m)

/-- Modelled from the spec: `Pipeline(...)` constructs the Pipeline State
with the identity world pose, a zero frame counter and an empty Local Map. -/
def Pipeline.init (args : PipelineArgs) : PipelineState :=
  { cfg := args, pose := 1, frameCount := 0, localMap := [] }

/-- Modelled from the spec: `compute(ts, points)` ingests one frame.  On a
degenerate frame (empty point set, or fewer valid correspondences than the
minimum) it returns the identity relative transform with the low-confidence
signal and leaves the pose and the Local Map unchanged; otherwise it
composes the estimated relative transform onto the world pose
(`world_new = world_old ∘ relative`) and lets the keyframe manager insert
the frame (always on bootstrap, else per the acceptance decision), evicting
oldest-first to keep the Local Map within `num_keyframes`. -/
def Pipeline.compute (o : Oracle) (st : PipelineState) (ts : Int)
    (pts : Cloud) : PipelineState × ComputeResult :=
  if pts.isEmpty = true ∨ o.corr pts st.localMap < o.minCorr then
    ({ st with frameCount := st.frameCount + 1 }, ⟨1, true⟩)
  else
    let rel := o.est pts st.localMap
    let st' : PipelineState :=
      { st with pose := st.pose * rel, frameCount := st.frameCount + 1 }
    let st'' : PipelineState :=
      if st.localMap.isEmpty = true ∨ o.accept st' = true then
        { st' with
          localMap :=
            localMapInsert st.cfg.num_keyframes.toNat st'.localMap
              (pts, st'.pose) }
      else st'
    (st'', ⟨rel, false⟩)

/-- Modelled from the spec: `currentPose()` returns the current world pose. -/
def Pipeline.currentPose (st : PipelineState) : Pose :=
  st.pose

/-- Modelled from the spec: `currentID()` returns the frame counter. -/
def Pipeline.currentID (st : PipelineState) : Nat :=
  st.frameCount

/-- Feeding a list of frames through `compute` one after the other,
collecting the per-frame results. -/
def computeSeq (o : Oracle) (st : PipelineState) :
    List Frame → PipelineState × List ComputeResult
  | [] => (st, [])
  | (ts, pts) :: fs =>
    let step := Pipeline.compute o st ts pts
    let rest := computeSeq o step.1 fs
    (rest.1, step.2 :: rest.2)

/-- The driver's frame loop (lines 118–130): for each `(ts, points)` yielded
by the reader, call `compute(ts, points)` and then write
`pipeline.currentPose()` to the estimate file.  Returns the list of compute
calls made (in order) and the list of poses written. -/
def processFrames (o : Oracle) (st : PipelineState) :
    List Frame → List Frame × List Pose
  | [] => ([], [])
  | (ts, pts) :: fs =>
    let step := Pipeline.compute o st ts pts
    let w := Pipeline.currentPose step.1
    let rest := processFrames o step.1 fs
    ((ts, pts) :: rest.1, w :: rest.2)

/-- How `main`'s run ends: `sys.exit(code)`, an unhandled exception, or
normal completion. -/
inductive Outcome where
  | exited (code : Int)
  | raised (e : PyExn)
  | finished
deriving DecidableEq

/-- Everything the run decides outside the driver's own arguments: the three
path checks of line 74, whether `open(mad_icp_config)` succeeds (line 98 —
this path is never pre-checked), the file names matched by
`data_path.glob("*.bag")` in iteration order (line 79), the two parsed
configuration mappings, and the frames the reader yields. -/
structure Env where
  dataPathIsDir : Bool
  estimatePathIsDir : Bool
  datasetConfigIsFile : Bool
  madIcpConfigOpenable : Bool
  bagMatches : List String
  dataCf : Config
  madIcpCf : Config
  frames : List Frame

/-- The observable result of one invocation of `main`: the outcome, the
value of `reader_type` once the selection of lines 78–83 has completed
(`none` if it never did), the arguments `Pipeline` was constructed with
(`none` if construction was never reached), the `compute` calls made, and
the poses written to `estimate.txt`. -/
structure RunResult where
  outcome : Outcome
  readerType : Option InputDataInterface
  pipelineArgs : Option PipelineArgs
  computeCalls : List Frame
  writes : List Pose

/-- Reading `data_cf` (lines 86–95): `min_range`, `max_range`, `sensor_hz`,
`deskew`, then `rosbag_topic` only for the `ros1` reader, then
`lidar_to_base`; a missing key raises `KeyError`. -/
structure DatasetCfg where
  min_range : YVal
  max_range : YVal
  sensor_hz : YVal
  deskew : YVal
  topic : Option YVal
  lidar_to_base : YVal

/-- One dictionary access `cf[k]`. -/
def getKey (cf : Config) (k : String) : Except PyExn YVal :=
  match cf k with
  | some v => Except.ok v
  | none => Except.error (PyExn.keyError k)

/-- Lines 86–95 of the driver: parse the dataset configuration. -/
def readDataCfg (rt : InputDataInterface) (cf : Config) :
    Except PyExn DatasetCfg :=
  match cf "min_range" with
  | none => Except.error (PyExn.keyError "min_range")
  | some mn =>
    match cf "max_range" with
    | none => Except.error (PyExn.keyError "max_range")
    | some mx =>
      match cf "sensor_hz" with
      | none => Except.error (PyExn.keyError "sensor_hz")
      | some hz =>
        match cf "deskew" with
        | none => Except.error (PyExn.keyError "deskew")
        | some dk =>
          match rt with
          | InputDataInterface.ros1 =>
            match cf "rosbag_topic" with
            | none => Except.error (PyExn.keyError "rosbag_topic")
            | some tp =>
              match cf "lidar_to_base" with
              | none => Except.error (PyExn.keyError "lidar_to_base")
              | some l2b => Except.ok ⟨mn, mx, hz, dk, some tp, l2b⟩
          | InputDataInterface.kitti =>
            match cf "lidar_to_base" with
            | none => Except.error (PyExn.keyError "lidar_to_base")
            | some l2b => Except.ok ⟨mn, mx, hz, dk, none, l2b⟩

/-- Reading `mad_icp_cf` (lines 100–105): `b_max`, `b_min`, `b_ratio`,
`p_th`, `rho_ker`, `n`. -/
structure IcpCfg where
  b_max : YVal
  b_min : YVal
  b_ratio : YVal
  p_th : YVal
  rho_ker : YVal
  n : YVal

/-- Lines 100–105 of the driver: parse the mad-icp configuration. -/
def readIcpCfg (cf : Config) : Except PyExn IcpCfg :=
  match cf "b_max" with
  | none => Except.error (PyExn.keyError "b_max")
  | some bmax =>
    match cf "b_min" with
    | none => Except.error (PyExn.keyError "b_min")
    | some bmin =>
      match cf "b_ratio" with
      | none => Except.error (PyExn.keyError "b_ratio")
      | some brat =>
        match cf "p_th" with
        | none => Except.error (PyExn.keyError "p_th")
        | some pth =>
          match cf "rho_ker" with
          | none => Except.error (PyExn.keyError "rho_ker")
          | some rho =>
            match cf "n" with
            | none => Except.error (PyExn.keyError "n")
            | some nv => Except.ok ⟨bmax, bmin, brat, pth, rho, nv⟩

/-- Lines 85–132 of the driver, entered with `reader_type` already decided:
parse the two configurations, run the realtime/num-cores check of
lines 108–110, construct the `Pipeline` (line 113) and drive the frame loop. -/
def runFrom (rt : InputDataInterface) (env : Env) (num_cores : Int)
    (num_keyframes : Int) (realtime : Bool) (o : Oracle) : RunResult :=
  match readDataCfg rt env.dataCf with
  | Except.error e => ⟨Outcome.raised e, some rt, none, [], []⟩
  | Except.ok _dcf =>
    if env.madIcpConfigOpenable = false then
      ⟨Outcome.raised PyExn.fileNotFoundError, some rt, none, [], []⟩
    else
      match readIcpCfg env.madIcpCf with
      | Except.error e => ⟨Outcome.raised e, some rt, none, [], []⟩
      | Except.ok icf =>
        if realtime = true ∧ num_keyframes > num_cores then
          ⟨Outcome.exited (-1), some rt, none, [], []⟩
        else
          let args : PipelineArgs :=
            ⟨_dcf.sensor_hz, _dcf.deskew, icf.b_max, icf.rho_ker, icf.p_th,
              icf.b_min, icf.b_ratio, num_keyframes, num_cores, realtime⟩
          let pr := processFrames o (Pipeline.init args) env.frames
          ⟨Outcome.finished, some rt, some args, pr.1, pr.2⟩

/-- `main` (lines 74–132): the path checks of line 74 (`sys.exit(-1)` on
failure), the reader selection of lines 78–83 (`glob("*.bag").__next__()`
raises `StopIteration` on an empty match list; otherwise `reader_type`
becomes `ros1` exactly when `"bag"` occurs in the first match's suffix,
else it keeps its initial value `kitti`), then `runFrom`. -/
def run (env : Env) (num_cores : Int) (num_keyframes : Int) (realtime : Bool)
    (o : Oracle) : RunResult :=
  if env.dataPathIsDir = false ∨ env.estimatePathIsDir = false ∨
      env.datasetConfigIsFile = false then
    ⟨Outcome.exited (-1), none, none, [], []⟩
  else
    match env.bagMatches.head? with
    | none => ⟨Outcome.raised PyExn.stopIteration, none, none, [], []⟩
    | some f =>
      runFrom
        (if strContains "bag" (pathSuffix f) then InputDataInterface.ros1
         else InputDataInterface.kitti)
        env num_cores num_keyframes realtime o

/-- A concrete dataset configuration holding every key the driver reads. -/
def cfgD : Config := fun k =>
  if k = "min_range" then some (YVal.i 0)
  else if k = "max_range" then some (YVal.i 100)
  else if k = "sensor_hz" then some (YVal.i 10)
  else if k = "deskew" then some (YVal.b true)
  else if k = "rosbag_topic" then some (YVal.s "/points")
  else if k = "lidar_to_base" then some (YVal.l [])
  else none

/-- A concrete mad-icp configuration holding every key the driver reads. -/
def cfgI : Config := fun k =>
  if k = "b_max" then some (YVal.i 1)
  else if k = "b_min" then some (YVal.i 2)
  else if k = "b_ratio" then some (YVal.i 3)
  else if k = "p_th" then some (YVal.i 4)
  else if k = "rho_ker" then some (YVal.i 5)
  else if k = "n" then some (YVal.i 8)
  else none

/-- A concrete engine oracle for witnesses. -/
def oracle0 : Oracle := ⟨fun _ _ => 0, 0, fun _ _ => 1, fun _ => true⟩

/-- A concrete environment in which startup succeeds: all paths valid, one
rosbag in the data directory, both configurations complete, one frame. -/
def envOk : Env :=
  ⟨true, true, true, true, ["a.bag"], cfgD, cfgI, [(0, [(1, 2, 3)])]⟩

/-- The dataset configuration record `cfgD` parses to. -/
def dcfOk : DatasetCfg :=
  ⟨YVal.i 0, YVal.i 100, YVal.i 10, YVal.b true, some (YVal.s "/points"),
    YVal.l []⟩

/-- The mad-icp configuration record `cfgI` parses to. -/
def icfOk : IcpCfg :=
  ⟨YVal.i 1, YVal.i 2, YVal.i 3, YVal.i 4, YVal.i 5, YVal.i 8⟩

/-- Concrete pipeline arguments for engine witnesses. -/
def args0 : PipelineArgs :=
  ⟨YVal.i 10, YVal.b true, YVal.i 1, YVal.i 5, YVal.i 4, YVal.i 2, YVal.i 3,
    4, 4, false⟩

/-- A concrete keyframe. -/
def kf0 : Keyframe := (([] : Cloud), (1 : Pose))

/-- Three concrete keyframes. -/
def kfs0 : List Keyframe := [kf0, kf0, kf0]

/-- `envOk` with an invalid dataset-configuration path. -/
def envBadPath : Env := { envOk with datasetConfigIsFile := false }

/-- `envOk` with the key `n` removed from the mad-icp configuration. -/
def envMissingN : Env :=
  { envOk with madIcpCf := fun k => if k = "n" then none else cfgI k }

/-- `envOk` with the data directory holding a single file named exactly
`".bag"` — matched by `glob("*.bag")` yet with an empty `pathlib` suffix. -/
def envDotBag : Env := { envOk with bagMatches := [".bag"] }

example : pathSuffix "a.bag" = ".bag" := by decide
example : pathSuffix ".bag" = "" := by decide
example : pathSuffix "a.b.bag" = ".bag" := by decide
example : pathSuffix "abag" = "" := by decide
example : strContains "bag" ".bag" = true := by decide
example : strContains "bag" "" = false := by decide
example : (run envOk 4 4 false oracle0).outcome = Outcome.finished := by decide
example : (run envOk 4 4 false oracle0).readerType = some InputDataInterface.ros1 := by decide
example : (run envOk 4 4 false oracle0).computeCalls = [(0, [(1, 2, 3)])] := by decide
example : (run envOk 4 5 true oracle0).outcome = Outcome.exited (-1) := by decide
example : (run { envOk with bagMatches := [] } 4 4 false oracle0).outcome = Outcome.raised PyExn.stopIteration := by decide
example : (run { envOk with bagMatches := [".bag"] } 4 4 false oracle0).readerType = some InputDataInterface.kitti := by decide
example : (run { envOk with bagMatches := [".bag"] } 4 4 false oracle0).outcome = Outcome.finished := by decide
example : (run { envOk with dataPathIsDir := false } 4 4 false oracle0).outcome = Outcome.exited (-1) := by decide
example : (run { envOk with madIcpConfigOpenable := false } 4 4 false oracle0).outcome = Outcome.raised PyExn.fileNotFoundError := by decide
example : (run { envOk with dataCf := fun k => if k = "min_range" then none else cfgD k } 4 4 false oracle0).outcome = Outcome.raised (PyExn.keyError "min_range") := by decide

/-- Whether the run will take the "dataset is in rosbag format" branch:
the first `*.bag` glob match exists and `"bag"` occurs in its suffix. -/
def rosbagFormat (env : Env) : Bool :=
  match env.bagMatches.head? with
  | some f => strContains "bag" (pathSuffix f)
  | none => false

/-- A configuration with one key rebound (the others untouched). -/
def updateCfg (cf : Config) (key : String) (v : YVal) : Config :=
  fun k => if k = key then some v else cf k

lemma processFrames_calls (o : Oracle) (fs : List Frame) :
    ∀ st : PipelineState, (processFrames o st fs).1 = fs := by
  induction fs with
  | nil => intro st; rfl
  | cons f fs ih =>
    intro st
    obtain ⟨ts, pts⟩ := f
    simp [processFrames, ih]

lemma runFrom_readerType (rt : InputDataInterface) (env : Env) (c k : Int)
    (r : Bool) (o : Oracle) : (runFrom rt env c k r o).readerType = some rt := by
  unfold runFrom
  repeat' split
  all_goals rfl

lemma readDataCfg_ok_fields {rt : InputDataInterface} {cf : Config}
    {d : DatasetCfg} (h : readDataCfg rt cf = Except.ok d) :
    cf "min_range" = some d.min_range ∧ cf "max_range" = some d.max_range ∧
    cf "sensor_hz" = some d.sensor_hz ∧ cf "deskew" = some d.deskew ∧
    (rt = InputDataInterface.ros1 →
      ∃ tp, cf "rosbag_topic" = some tp ∧ d.topic = some tp) ∧
    cf "lidar_to_base" = some d.lidar_to_base := by
  unfold readDataCfg at h
  split at h
  · exact Except.noConfusion h
  next mn hmn =>
    split at h
    · exact Except.noConfusion h
    next mx hmx =>
      split at h
      · exact Except.noConfusion h
      next hz hhz =>
        split at h
        · exact Except.noConfusion h
        next dk hdk =>
          split at h
          next =>
            split at h
            · exact Except.noConfusion h
            next tp htp =>
              split at h
              · exact Except.noConfusion h
              next l2b hl2b =>
                cases h
                exact ⟨hmn, hmx, hhz, hdk, fun _ => ⟨tp, htp, rfl⟩, hl2b⟩
          next =>
            split at h
            · exact Except.noConfusion h
            next l2b hl2b =>
              cases h
              exact ⟨hmn, hmx, hhz, hdk,
                fun hrt => InputDataInterface.noConfusion hrt, hl2b⟩

lemma readIcpCfg_ok_fields {cf : Config} {d : IcpCfg}
    (h : readIcpCfg cf = Except.ok d) :
    cf "b_max" = some d.b_max ∧ cf "b_min" = some d.b_min ∧
    cf "b_ratio" = some d.b_ratio ∧ cf "p_th" = some d.p_th ∧
    cf "rho_ker" = some d.rho_ker ∧ cf "n" = some d.n := by
  unfold readIcpCfg at h
  split at h
  · exact Except.noConfusion h
  next bmax hbmax =>
    split at h
    · exact Except.noConfusion h
    next bmin hbmin =>
      split at h
      · exact Except.noConfusion h
      next brat hbrat =>
        split at h
        · exact Except.noConfusion h
        next pth hpth =>
          split at h
          · exact Except.noConfusion h
          next rho hrho =>
            split at h
            · exact Except.noConfusion h
            next nv hnv =>
              cases h
              exact ⟨hbmax, hbmin, hbrat, hpth, hrho, hnv⟩

lemma run_startup_ok (env : Env) (c k : Int) (r : Bool) (o : Oracle)
    (h1 : env.dataPathIsDir = true) (h2 : env.estimatePathIsDir = true)
    (h3 : env.datasetConfigIsFile = true) (h4 : env.madIcpConfigOpenable = true)
    (f : String) (hf : env.bagMatches.head? = some f)
    (dcf : DatasetCfg)
    (hd : readDataCfg
        (if strContains "bag" (pathSuffix f) then InputDataInterface.ros1
         else InputDataInterface.kitti) env.dataCf = Except.ok dcf)
    (icf : IcpCfg) (hi : readIcpCfg env.madIcpCf = Except.ok icf) :
    run env c k r o =
      if r = true ∧ k > c then
        ⟨Outcome.exited (-1),
          some (if strContains "bag" (pathSuffix f) then InputDataInterface.ros1
                else InputDataInterface.kitti), none, [], []⟩
      else
        ⟨Outcome.finished,
          some (if strContains "bag" (pathSuffix f) then InputDataInterface.ros1
                else InputDataInterface.kitti),
          some ⟨dcf.sensor_hz, dcf.deskew, icf.b_max, icf.rho_ker, icf.p_th,
            icf.b_min, icf.b_ratio, k, c, r⟩,
          env.frames,
          (processFrames o
            (Pipeline.init ⟨dcf.sensor_hz, dcf.deskew, icf.b_max, icf.rho_ker,
              icf.p_th, icf.b_min, icf.b_ratio, k, c, r⟩) env.frames).2⟩ := by
  have hcond : ¬(env.dataPathIsDir = false ∨ env.estimatePathIsDir = false ∨
      env.datasetConfigIsFile = false) := by simp [h1, h2, h3]
  unfold run
  rw [if_neg hcond, hf]
  dsimp only
  unfold runFrom
  rw [hd]
  dsimp only
  rw [if_neg (by simp [h4] : ¬(env.madIcpConfigOpenable = false))]
  rw [hi]
  dsimp only
  by_cases hc : r = true ∧ k > c
  · rw [if_pos hc, if_pos hc]
  · rw [if_neg hc, if_neg hc]
    rw [processFrames_calls]

lemma lastIdxOf_append_some {c : Char} {l : List Char} {j : Nat}
    (pre : List Char) (h : lastIdxOf c l = some j) :
    lastIdxOf c (pre ++ l) = some (pre.length + j) := by
  induction pre with
  | nil => simpa using h
  | cons x xs ih =>
    simp only [List.cons_append, lastIdxOf, List.append_eq, ih, List.length_cons,
      Option.some.injEq]
    omega

lemma pathSuffix_dotbag (f : String) (pre : List Char)
    (hf : f.toList = pre ++ '.' :: 'b' :: 'a' :: 'g' :: []) (hne : pre ≠ []) :
    pathSuffix f = ".bag" := by
  have h0 : lastIdxOf '.' ('.' :: 'b' :: 'a' :: 'g' :: []) = some 0 := by decide
  have h1 := lastIdxOf_append_some pre h0
  have hlen : 0 < pre.length := List.length_pos.mpr hne
  unfold pathSuffix
  dsimp only
  rw [hf, h1]
  dsimp only
  rw [if_pos (show 0 < pre.length + 0 ∧
      pre.length + 0 < (pre ++ '.' :: 'b' :: 'a' :: 'g' :: []).length - 1 by
    simp only [List.length_append, List.length_cons, List.length_nil]
    omega)]
  rw [Nat.add_zero, List.drop_left]

lemma compute_pose_mul (o : Oracle) (st : PipelineState) (ts : Int)
    (pts : Cloud) :
    (Pipeline.compute o st ts pts).1.pose
      = st.pose * (Pipeline.compute o st ts pts).2.relative := by
  unfold Pipeline.compute
  by_cases hdeg : pts.isEmpty = true ∨ o.corr pts st.localMap < o.minCorr
  · rw [if_pos hdeg]
    dsimp only
    rw [mul_one]
  · rw [if_neg hdeg]
    dsimp only
    split <;> rfl

lemma computeSeq_pose (o : Oracle) (fs : List Frame) :
    ∀ st : PipelineState,
      (computeSeq o st fs).1.pose =
        ((computeSeq o st fs).2.map ComputeResult.relative).foldl
          (fun p rel => p * rel) st.pose := by
  induction fs with
  | nil => intro st; simp [computeSeq]
  | cons f fs ih =>
    intro st
    obtain ⟨ts, pts⟩ := f
    simp only [computeSeq, List.map_cons, List.foldl_cons]
    rw [ih, compute_pose_mul]

lemma localMapInsert_length (K : Nat) (m : List Keyframe) (kf : Keyframe) :
    (localMapInsert K m kf).length = min K (m.length + 1) := by
  simp [localMapInsert]

lemma foldl_localMapInsert_length (K : Nat) (kfs : List Keyframe) :
    ∀ m : List Keyframe, m.length ≤ K →
      (kfs.foldl (localMapInsert K) m).length = min K (m.length + kfs.length) := by
  induction kfs with
  | nil =>
    intro m hm
    simp
    omega
  | cons a as ih =>
    intro m hm
    simp only [List.foldl_cons, List.length_cons]
    rw [ih (localMapInsert K m a) (by rw [localMapInsert_length]; omega)]
    rw [localMapInsert_length]
    omega

lemma compute_cfg (o : Oracle) (st : PipelineState) (ts : Int) (pts : Cloud) :
    (Pipeline.compute o st ts pts).1.cfg = st.cfg := by
  unfold Pipeline.compute
  split
  · rfl
  · dsimp only
    split <;> rfl

lemma compute_localMap_le (o : Oracle) (st : PipelineState) (ts : Int)
    (pts : Cloud) (h : st.localMap.length ≤ st.cfg.num_keyframes.toNat) :
    (Pipeline.compute o st ts pts).1.localMap.length
      ≤ st.cfg.num_keyframes.toNat := by
  unfold Pipeline.compute
  split
  · exact h
  · dsimp only
    split
    · simp only [localMapInsert_length]
      omega
    · exact h

lemma computeSeq_cfg (o : Oracle) (fs : List Frame) :
    ∀ st : PipelineState, (computeSeq o st fs).1.cfg = st.cfg := by
  induction fs with
  | nil => intro st; rfl
  | cons f fs ih =>
    intro st
    obtain ⟨ts, pts⟩ := f
    simp only [computeSeq]
    rw [ih, compute_cfg]

lemma computeSeq_localMap_le (o : Oracle) (fs : List Frame) :
    ∀ st : PipelineState,
      st.localMap.length ≤ st.cfg.num_keyframes.toNat →
      (computeSeq o st fs).1.localMap.length ≤ st.cfg.num_keyframes.toNat := by
  induction fs with
  | nil => intro st h; exact h
  | cons f fs ih =>
    intro st h
    obtain ⟨ts, pts⟩ := f
    simp only [computeSeq]
    have h2 := compute_localMap_le o st ts pts h
    have h3 := ih (Pipeline.compute o st ts pts).1
      (by rw [compute_cfg]; exact h2)
    rw [compute_cfg] at h3
    exact h3

/-- C1: with valid paths, a successful reader selection and both
configuration files complete, startup aborts — the process exits with
status -1 and the `Pipeline` is never constructed — if and only if
`realtime` is enabled and `num_keyframes > num_cores`; whenever `realtime`
is disabled or `num_keyframes ≤ num_cores`, the check passes, the run
finishes and the `Pipeline` is constructed. -/
theorem realtime_check_gate (env : Env) (c k : Int) (r : Bool) (o : Oracle)
    (h1 : env.dataPathIsDir = true) (h2 : env.estimatePathIsDir = true)
    (h3 : env.datasetConfigIsFile = true) (h4 : env.madIcpConfigOpenable = true)
    (f : String) (hf : env.bagMatches.head? = some f)
    (dcf : DatasetCfg)
    (hd : readDataCfg
        (if strContains "bag" (pathSuffix f) then InputDataInterface.ros1
         else InputDataInterface.kitti) env.dataCf = Except.ok dcf)
    (icf : IcpCfg) (hi : readIcpCfg env.madIcpCf = Except.ok icf) :
    (((run env c k r o).outcome = Outcome.exited (-1) ∧
        (run env c k r o).pipelineArgs = none) ↔ (r = true ∧ k > c)) ∧
    (¬(r = true ∧ k > c) →
      (run env c k r o).outcome = Outcome.finished ∧
      (run env c k r o).pipelineArgs.isSome = true) := by
  have hrun := run_startup_ok env c k r o h1 h2 h3 h4 f hf dcf hd icf hi
  by_cases hc : r = true ∧ k > c
  · rw [hrun, if_pos hc]
    exact ⟨⟨fun _ => hc, fun _ => ⟨rfl, rfl⟩⟩, fun hn => absurd hc hn⟩
  · rw [hrun, if_neg hc]
    exact ⟨⟨fun hx => Outcome.noConfusion hx.1, fun hx => absurd hx hc⟩,
      fun _ => ⟨rfl, rfl⟩⟩

/-- Witness for C1: in the concrete environment `envOk`, with
`realtime = true`, `num_keyframes = 5 > num_cores = 4` the run exits with
status -1 and never constructs the `Pipeline`. -/
theorem realtime_check_gate_witness :
    (run envOk 4 5 true oracle0).outcome = Outcome.exited (-1) ∧
    (run envOk 4 5 true oracle0).pipelineArgs = none := by
  have h := realtime_check_gate envOk 4 5 true oracle0 rfl rfl rfl rfl
    "a.bag" rfl dcfOk rfl icfOk rfl
  exact h.1.mpr ⟨rfl, by decide⟩

/-- C2: whenever startup succeeds, the driver loop makes exactly one
`compute(ts, points)` call per frame yielded by the reader, in arrival
order — the list of compute calls equals the yielded sequence itself, so no
frame is skipped, duplicated or reordered, and the reader is traversed
exactly once. -/
theorem driver_single_pass (env : Env) (c k : Int) (r : Bool) (o : Oracle)
    (h1 : env.dataPathIsDir = true) (h2 : env.estimatePathIsDir = true)
    (h3 : env.datasetConfigIsFile = true) (h4 : env.madIcpConfigOpenable = true)
    (f : String) (hf : env.bagMatches.head? = some f)
    (dcf : DatasetCfg)
    (hd : readDataCfg
        (if strContains "bag" (pathSuffix f) then InputDataInterface.ros1
         else InputDataInterface.kitti) env.dataCf = Except.ok dcf)
    (icf : IcpCfg) (hi : readIcpCfg env.madIcpCf = Except.ok icf)
    (hrc : ¬(r = true ∧ k > c)) :
    (run env c k r o).computeCalls = env.frames ∧
    (run env c k r o).outcome = Outcome.finished := by
  rw [run_startup_ok env c k r o h1 h2 h3 h4 f hf dcf hd icf hi, if_neg hrc]
  exact ⟨rfl, rfl⟩

/-- Witness for C2: in `envOk` the single yielded frame produces the single
compute call, in order. -/
theorem driver_single_pass_witness :
    (run envOk 4 4 false oracle0).computeCalls = [(0, [(1, 2, 3)])] ∧
    (run envOk 4 4 false oracle0).outcome = Outcome.finished := by
  have h := driver_single_pass envOk 4 4 false oracle0 rfl rfl rfl rfl
    "a.bag" rfl dcfOk rfl icfOk rfl (by decide)
  exact ⟨h.1, h.2⟩

/-- C3: when startup succeeds, the `Pipeline` is constructed with exactly
the ten configuration values in the order `(sensor_hz, deskew, b_max,
rho_ker, p_th, b_min, b_ratio, num_keyframes, num_cores, realtime)`, where
`sensor_hz` and `deskew` are the dataset-configuration values, `b_max`,
`rho_ker`, `p_th`, `b_min`, `b_ratio` the mad-icp-configuration values, and
`num_keyframes`, `num_cores`, `realtime` the command-line options. -/
theorem pipeline_ctor_args (env : Env) (c k : Int) (r : Bool) (o : Oracle)
    (h1 : env.dataPathIsDir = true) (h2 : env.estimatePathIsDir = true)
    (h3 : env.datasetConfigIsFile = true) (h4 : env.madIcpConfigOpenable = true)
    (f : String) (hf : env.bagMatches.head? = some f)
    (dcf : DatasetCfg)
    (hd : readDataCfg
        (if strContains "bag" (pathSuffix f) then InputDataInterface.ros1
         else InputDataInterface.kitti) env.dataCf = Except.ok dcf)
    (icf : IcpCfg) (hi : readIcpCfg env.madIcpCf = Except.ok icf)
    (hrc : ¬(r = true ∧ k > c))
    (hz dk bmax rho pth bmin brat : YVal)
    (hhz : env.dataCf "sensor_hz" = some hz)
    (hdk : env.dataCf "deskew" = some dk)
    (hbmax : env.madIcpCf "b_max" = some bmax)
    (hrho : env.madIcpCf "rho_ker" = some rho)
    (hpth : env.madIcpCf "p_th" = some pth)
    (hbmin : env.madIcpCf "b_min" = some bmin)
    (hbrat : env.madIcpCf "b_ratio" = some brat) :
    (run env c k r o).pipelineArgs =
      some ⟨hz, dk, bmax, rho, pth, bmin, brat, k, c, r⟩ := by
  have hdf := readDataCfg_ok_fields hd
  have hif := readIcpCfg_ok_fields hi
  have e1 : hz = dcf.sensor_hz := by
    have hx := hdf.2.2.1; rw [hhz] at hx; exact Option.some.inj hx
  have e2 : dk = dcf.deskew := by
    have hx := hdf.2.2.2.1; rw [hdk] at hx; exact Option.some.inj hx
  have e3 : bmax = icf.b_max := by
    have hx := hif.1; rw [hbmax] at hx; exact Option.some.inj hx
  have e4 : rho = icf.rho_ker := by
    have hx := hif.2.2.2.2.1; rw [hrho] at hx; exact Option.some.inj hx
  have e5 : pth = icf.p_th := by
    have hx := hif.2.2.2.1; rw [hpth] at hx; exact Option.some.inj hx
  have e6 : bmin = icf.b_min := by
    have hx := hif.2.1; rw [hbmin] at hx; exact Option.some.inj hx
  have e7 : brat = icf.b_ratio := by
    have hx := hif.2.2.1; rw [hbrat] at hx; exact Option.some.inj hx
  rw [run_startup_ok env c k r o h1 h2 h3 h4 f hf dcf hd icf hi, if_neg hrc,
    e1, e2, e3, e4, e5, e6, e7]

/-- Witness for C3: in `envOk` the `Pipeline` receives exactly the ten
values from the three sources in the documented order. -/
theorem pipeline_ctor_args_witness :
    (run envOk 4 4 false oracle0).pipelineArgs =
      some ⟨YVal.i 10, YVal.b true, YVal.i 1, YVal.i 5, YVal.i 4, YVal.i 2,
        YVal.i 3, 4, 4, false⟩ :=
  pipeline_ctor_args envOk 4 4 false oracle0 rfl rfl rfl rfl "a.bag" rfl
    dcfOk rfl icfOk rfl (by decide) (YVal.i 10) (YVal.b true) (YVal.i 1)
    (YVal.i 5) (YVal.i 4) (YVal.i 2) (YVal.i 3) rfl rfl rfl rfl rfl rfl rfl

/-- C4: whenever one of the input paths is invalid — `data_path` or
`estimate_path` not a directory, `dataset_config` not a file, or
`mad_icp_config` not an openable file — the run is fatal: it never reaches
`Pipeline` construction and never processes a frame. -/
theorem invalid_paths_fatal (env : Env) (c k : Int) (r : Bool) (o : Oracle)
    (hbad : env.dataPathIsDir = false ∨ env.estimatePathIsDir = false ∨
      env.datasetConfigIsFile = false ∨ env.madIcpConfigOpenable = false) :
    (run env c k r o).outcome ≠ Outcome.finished ∧
    (run env c k r o).pipelineArgs = none ∧
    (run env c k r o).computeCalls = [] := by
  unfold run
  by_cases hp : env.dataPathIsDir = false ∨ env.estimatePathIsDir = false ∨
      env.datasetConfigIsFile = false
  · rw [if_pos hp]
    exact ⟨fun hx => Outcome.noConfusion hx, rfl, rfl⟩
  · rw [if_neg hp]
    have hmo : env.madIcpConfigOpenable = false := by
      rcases hbad with h | h | h | h
      · exact absurd (Or.inl h) hp
      · exact absurd (Or.inr (Or.inl h)) hp
      · exact absurd (Or.inr (Or.inr h)) hp
      · exact h
    cases hhd : env.bagMatches.head? with
    | none => exact ⟨fun hx => Outcome.noConfusion hx, rfl, rfl⟩
    | some f =>
      dsimp only
      generalize (if strContains "bag" (pathSuffix f) then
        InputDataInterface.ros1 else InputDataInterface.kitti) = rt
      unfold runFrom
      cases hrd : readDataCfg rt env.dataCf with
      | error e => exact ⟨fun hx => Outcome.noConfusion hx, rfl, rfl⟩
      | ok dcf =>
        dsimp only
        rw [if_pos hmo]
        exact ⟨fun hx => Outcome.noConfusion hx, rfl, rfl⟩

/-- Witness for C4: with `dataset_config` not a file the run of
`envBadPath` is fatal before the `Pipeline` exists. -/
theorem invalid_paths_fatal_witness :
    (run envBadPath 4 4 false oracle0).outcome ≠ Outcome.finished ∧
    (run envBadPath 4 4 false oracle0).pipelineArgs = none ∧
    (run envBadPath 4 4 false oracle0).computeCalls = [] :=
  invalid_paths_fatal envBadPath 4 4 false oracle0
    (Or.inr (Or.inr (Or.inl rfl)))

/-- C5: whenever a required configuration key is absent — `min_range`,
`max_range`, `sensor_hz`, `deskew` or `lidar_to_base` in the dataset
configuration, `rosbag_topic` in the dataset configuration when the dataset
is in rosbag format, or `b_max`, `b_min`, `b_ratio`, `p_th`, `rho_ker` or
`n` in the mad-icp configuration — startup terminates before the `Pipeline`
is constructed and before any frame is processed. -/
theorem missing_key_fatal (env : Env) (c k : Int) (r : Bool) (o : Oracle)
    (hmiss : env.dataCf "min_range" = none ∨ env.dataCf "max_range" = none ∨
      env.dataCf "sensor_hz" = none ∨ env.dataCf "deskew" = none ∨
      (rosbagFormat env = true ∧ env.dataCf "rosbag_topic" = none) ∨
      env.dataCf "lidar_to_base" = none ∨
      env.madIcpCf "b_max" = none ∨ env.madIcpCf "b_min" = none ∨
      env.madIcpCf "b_ratio" = none ∨ env.madIcpCf "p_th" = none ∨
      env.madIcpCf "rho_ker" = none ∨ env.madIcpCf "n" = none) :
    (run env c k r o).outcome ≠ Outcome.finished ∧
    (run env c k r o).pipelineArgs = none ∧
    (run env c k r o).computeCalls = [] := by
  unfold run
  by_cases hp : env.dataPathIsDir = false ∨ env.estimatePathIsDir = false ∨
      env.datasetConfigIsFile = false
  · rw [if_pos hp]
    exact ⟨fun hx => Outcome.noConfusion hx, rfl, rfl⟩
  · rw [if_neg hp]
    cases hhd : env.bagMatches.head? with
    | none => exact ⟨fun hx => Outcome.noConfusion hx, rfl, rfl⟩
    | some f =>
      dsimp only
      generalize hrt : (if strContains "bag" (pathSuffix f) then
        InputDataInterface.ros1 else InputDataInterface.kitti) = rt
      unfold runFrom
      cases hrd : readDataCfg rt env.dataCf with
      | error e => exact ⟨fun hx => Outcome.noConfusion hx, rfl, rfl⟩
      | ok dcf =>
        dsimp only
        by_cases hmo : env.madIcpConfigOpenable = false
        · rw [if_pos hmo]
          exact ⟨fun hx => Outcome.noConfusion hx, rfl, rfl⟩
        · rw [if_neg hmo]
          cases hri : readIcpCfg env.madIcpCf with
          | error e => exact ⟨fun hx => Outcome.noConfusion hx, rfl, rfl⟩
          | ok icf =>
            exfalso
            have hdf := readDataCfg_ok_fields hrd
            have hif := readIcpCfg_ok_fields hri
            rcases hmiss with h | h | h | h | ⟨hrf, h⟩ | h | h | h | h | h | h | h
            · have hx := hdf.1; rw [h] at hx; exact Option.noConfusion hx
            · have hx := hdf.2.1; rw [h] at hx; exact Option.noConfusion hx
            · have hx := hdf.2.2.1; rw [h] at hx; exact Option.noConfusion hx
            · have hx := hdf.2.2.2.1; rw [h] at hx
              exact Option.noConfusion hx
            · have hsc : strContains "bag" (pathSuffix f) = true := by
                have hy := hrf
                unfold rosbagFormat at hy
                rw [hhd] at hy
                exact hy
              rw [hsc] at hrt
              simp only [if_true] at hrt
              obtain ⟨tp, htp, _⟩ := hdf.2.2.2.2.1 hrt.symm
              rw [h] at htp
              exact Option.noConfusion htp
            · have hx := hdf.2.2.2.2.2; rw [h] at hx
              exact Option.noConfusion hx
            · have hx := hif.1; rw [h] at hx; exact Option.noConfusion hx
            · have hx := hif.2.1; rw [h] at hx; exact Option.noConfusion hx
            · have hx := hif.2.2.1; rw [h] at hx; exact Option.noConfusion hx
            · have hx := hif.2.2.2.1; rw [h] at hx
              exact Option.noConfusion hx
            · have hx := hif.2.2.2.2.1; rw [h] at hx
              exact Option.noConfusion hx
            · have hx := hif.2.2.2.2.2; rw [h] at hx
              exact Option.noConfusion hx

/-- Witness for C5: removing the key `n` from the mad-icp configuration
makes the run of `envMissingN` terminate before `Pipeline` construction. -/
theorem missing_key_fatal_witness :
    (run envMissingN 4 4 false oracle0).outcome ≠ Outcome.finished ∧
    (run envMissingN 4 4 false oracle0).pipelineArgs = none ∧
    (run envMissingN 4 4 false oracle0).computeCalls = [] :=
  missing_key_fatal envMissingN 4 4 false oracle0
    (Or.inr (Or.inr (Or.inr (Or.inr (Or.inr (Or.inr (Or.inr (Or.inr
      (Or.inr (Or.inr (Or.inr rfl)))))))))))

/-- C6 (spec-modelled engine): `currentPose()` before any `compute()` call
returns the identity transform; after computes it returns the current
world-frame pose — the forward integration of the relative transforms
reported by the engine, starting from the identity. -/
theorem currentPose_before_after (args : PipelineArgs) (o : Oracle)
    (frames : List Frame) :
    Pipeline.currentPose (Pipeline.init args) = 1 ∧
    Pipeline.currentPose (computeSeq o (Pipeline.init args) frames).1 =
      ((computeSeq o (Pipeline.init args) frames).2.map
        ComputeResult.relative).foldl (fun p rel => p * rel) 1 := by
  constructor
  · rfl
  · exact computeSeq_pose o frames (Pipeline.init args)

/-- C7 (spec-modelled engine): the Local Map never exceeds `num_keyframes`
keyframes — every insertion preserves the bound, after `N ≥ num_keyframes`
accepted insertions the map holds exactly `num_keyframes` keyframes, and
any `compute` sequence from a fresh pipeline keeps the map within the
configured capacity. -/
theorem localMap_bounded (K : Nat) (m : List Keyframe) (kf : Keyframe)
    (kfs : List Keyframe) (o : Oracle) (args : PipelineArgs)
    (frames : List Frame) (hm : m.length ≤ K) (hN : K ≤ kfs.length) :
    (localMapInsert K m kf).length ≤ K ∧
    (kfs.foldl (localMapInsert K) []).length = K ∧
    (computeSeq o (Pipeline.init args) frames).1.localMap.length
      ≤ args.num_keyframes.toNat := by
  refine ⟨?_, ?_, ?_⟩
  · rw [localMapInsert_length]
    omega
  · rw [foldl_localMapInsert_length K kfs [] (Nat.zero_le K)]
    simp only [List.length_nil]
    omega
  · exact computeSeq_localMap_le o frames (Pipeline.init args) (Nat.zero_le _)

/-- Witness for C7 at capacity 2 with three accepted insertions. -/
theorem localMap_bounded_witness :
    (localMapInsert 2 [] kf0).length ≤ 2 ∧
    (kfs0.foldl (localMapInsert 2) []).length = 2 ∧
    (computeSeq oracle0 (Pipeline.init args0) []).1.localMap.length
      ≤ args0.num_keyframes.toNat :=
  localMap_bounded 2 [] kf0 kfs0 oracle0 args0 [] (by decide) (by decide)

/-- C8 (spec-modelled engine): on a degenerate frame — empty point set or
fewer valid correspondences than the minimum — `compute` is non-fatal: it
reports the identity relative transform with the low-confidence signal,
leaves the world pose and the Local Map unchanged, and the driver loop
still processes the degenerate frame and every later frame. -/
theorem compute_degenerate_nonfatal (o : Oracle) (st : PipelineState)
    (ts : Int) (pts : Cloud)
    (hdeg : pts.isEmpty = true ∨ o.corr pts st.localMap < o.minCorr) :
    (Pipeline.compute o st ts pts).2.relative = 1 ∧
    (Pipeline.compute o st ts pts).2.lowConfidence = true ∧
    (Pipeline.compute o st ts pts).1.pose = st.pose ∧
    (Pipeline.compute o st ts pts).1.localMap = st.localMap ∧
    (∀ rest : List Frame,
      (processFrames o st ((ts, pts) :: rest)).1 = (ts, pts) :: rest) := by
  have hc : Pipeline.compute o st ts pts =
      ({ st with frameCount := st.frameCount + 1 }, ⟨1, true⟩) := by
    unfold Pipeline.compute
    rw [if_pos hdeg]
  exact ⟨by rw [hc], by rw [hc], by rw [hc], by rw [hc],
    fun rest => processFrames_calls o ((ts, pts) :: rest) st⟩

/-- Witness for C8: the empty first frame is degenerate, and `compute`
returns identity with low confidence, leaving the pose at the identity. -/
theorem compute_degenerate_nonfatal_witness :
    (([] : Cloud).isEmpty = true ∨
      oracle0.corr [] (Pipeline.init args0).localMap < oracle0.minCorr) ∧
    (Pipeline.compute oracle0 (Pipeline.init args0) 0 []).2.relative = 1 ∧
    (Pipeline.compute oracle0 (Pipeline.init args0) 0 []).2.lowConfidence
      = true ∧
    (Pipeline.compute oracle0 (Pipeline.init args0) 0 []).1.pose
      = (Pipeline.init args0).pose :=
  ⟨Or.inl rfl,
    (compute_degenerate_nonfatal oracle0 (Pipeline.init args0) 0 []
      (Or.inl rfl)).1,
    (compute_degenerate_nonfatal oracle0 (Pipeline.init args0) 0 []
      (Or.inl rfl)).2.1,
    (compute_degenerate_nonfatal oracle0 (Pipeline.init args0) 0 []
      (Or.inl rfl)).2.2.1⟩

/-- C9 (amended): with valid paths, a data directory with no `*.bag` glob
match makes the reader-selection expression raise an unhandled
`StopIteration` (so the kitti branch is never reached); and whenever
execution proceeds past reader selection with a first glob match that ends
in `".bag"` with a non-empty stem — every match except a file named exactly
`".bag"` — the selected reader type is `ros1`. -/
theorem reader_selection_amended (env : Env) (c k : Int) (r : Bool)
    (o : Oracle)
    (h1 : env.dataPathIsDir = true) (h2 : env.estimatePathIsDir = true)
    (h3 : env.datasetConfigIsFile = true) :
    (env.bagMatches = [] →
      run env c k r o =
        ⟨Outcome.raised PyExn.stopIteration, none, none, [], []⟩) ∧
    (∀ (f : String) (rest : List String) (pre : List Char),
      env.bagMatches = f :: rest →
      f.toList = pre ++ '.' :: 'b' :: 'a' :: 'g' :: [] → pre ≠ [] →
      (run env c k r o).readerType = some InputDataInterface.ros1) := by
  have hcond : ¬(env.dataPathIsDir = false ∨ env.estimatePathIsDir = false ∨
      env.datasetConfigIsFile = false) := by simp [h1, h2, h3]
  constructor
  · intro hnil
    unfold run
    rw [if_neg hcond, hnil]
    rfl
  · intro f rest pre hb hf hpre
    unfold run
    rw [if_neg hcond, hb]
    show (runFrom
      (if strContains "bag" (pathSuffix f) then InputDataInterface.ros1
       else InputDataInterface.kitti) env c k r o).readerType
      = some InputDataInterface.ros1
    rw [pathSuffix_dotbag f pre hf hpre]
    exact runFrom_readerType _ env c k r o

/-- Counterexample for C9 as stated: in `envDotBag` the only glob match is
a file named exactly `".bag"`; its `pathlib` suffix is empty, so
`reader_type` stays `kitti`, execution proceeds past reader selection to a
finished run, and the KittiReader is selected from the lookup table. -/
theorem reader_selection_kitti_counterexample :
    (run envDotBag 4 4 false oracle0).readerType
      = some InputDataInterface.kitti ∧
    (run envDotBag 4 4 false oracle0).outcome = Outcome.finished :=
  ⟨by decide, by decide⟩

/-- Witness for the amended C9: in `envOk` the first match `"a.bag"` has a
non-empty stem, and the selected reader type is `ros1`. -/
theorem reader_selection_amended_witness :
    (run envOk 4 4 false oracle0).readerType
      = some InputDataInterface.ros1 :=
  (reader_selection_amended envOk 4 4 false oracle0 rfl rfl rfl).2
    "a.bag" [] ['a'] rfl rfl (by decide)

lemma updateCfg_ne (cf : Config) (key : String) (v : YVal) (k : String)
    (h : ¬k = key) : updateCfg cf key v k = cf k := by
  simp [updateCfg, h]

lemma updateCfg_self (cf : Config) (key : String) (v : YVal) :
    updateCfg cf key v key = some v := by
  simp [updateCfg]

/-- C10: the value bound to the mad-icp configuration key `n` has no effect
on the run — two runs identical except for the value of `n` (both present)
produce the same outcome, the same reader selection, the same `Pipeline`
construction, the same `compute` calls and the same written trajectory. -/
theorem icp_n_no_influence (env : Env) (c k : Int) (r : Bool) (o : Oracle)
    (v₁ v₂ : YVal) :
    run { env with madIcpCf := updateCfg env.madIcpCf "n" v₁ } c k r o =
    run { env with madIcpCf := updateCfg env.madIcpCf "n" v₂ } c k r o := by
  obtain ⟨dp, ep, dc, mo, bm, dCf, iCf, fr⟩ := env
  dsimp only
  unfold run
  by_cases hp : dp = false ∨ ep = false ∨ dc = false
  · rw [if_pos hp, if_pos hp]
  · rw [if_neg hp, if_neg hp]
    cases hbm : bm.head? with
    | none => rfl
    | some f =>
      dsimp only
      generalize (if strContains "bag" (pathSuffix f) then
        InputDataInterface.ros1 else InputDataInterface.kitti) = rt
      unfold runFrom
      cases hrd : readDataCfg rt dCf with
      | error e => rfl
      | ok dcf =>
        dsimp only
        by_cases hmo : mo = false
        · rw [if_pos hmo, if_pos hmo]
        · rw [if_neg hmo, if_neg hmo]
          unfold readIcpCfg
          rw [updateCfg_ne iCf "n" v₁ "b_max" (by decide),
            updateCfg_ne iCf "n" v₂ "b_max" (by decide)]
          cases h1 : iCf "b_max" with
          | none => rfl
          | some bmax =>
            dsimp only
            rw [updateCfg_ne iCf "n" v₁ "b_min" (by decide),
              updateCfg_ne iCf "n" v₂ "b_min" (by decide)]
            cases h2 : iCf "b_min" with
            | none => rfl
            | some bmin =>
              dsimp only
              rw [updateCfg_ne iCf "n" v₁ "b_ratio" (by decide),
                updateCfg_ne iCf "n" v₂ "b_ratio" (by decide)]
              cases h3 : iCf "b_ratio" with
              | none => rfl
              | some brat =>
                dsimp only
                rw [updateCfg_ne iCf "n" v₁ "p_th" (by decide),
                  updateCfg_ne iCf "n" v₂ "p_th" (by decide)]
                cases h4 : iCf "p_th" with
                | none => rfl
                | some pth =>
                  dsimp only
                  rw [updateCfg_ne iCf "n" v₁ "rho_ker" (by decide),
                    updateCfg_ne iCf "n" v₂ "rho_ker" (by decide)]
                  cases h5 : iCf "rho_ker" with
                  | none => rfl
                  | some rho =>
                    dsimp only
                    rw [updateCfg_self iCf "n" v₁, updateCfg_self iCf "n" v₂]
